import Mathlib

/-!
Shallow embedding of the UIRobot network driver (src/driver/UIRobot.ts).

The driver is a stateful adapter over a line-oriented TCP socket.  We model
the session state explicitly (the private fields of the `UIRobot` class
together with the observable effects: commands written to the socket,
wake-on-LAN signals, and change notifications raised for properties), and
each property setter / event handler as a state-transition function.

JavaScript particulars that matter here and are modelled faithfully:
- `String.prototype.split` with a one-character separator behaves like
  Lean's `String.splitOn`;
- indexing an array out of range yields `undefined`, and string
  concatenation coerces `undefined` to the string "undefined";
- `||` on strings picks the second operand exactly when the first is the
  empty string (the only falsy string);
- the key-release timer (`wait(200)` returning a cancelable promise) is
  modelled by timer identities with firing deadlines: the session field
  `mKeyRlsTimer` holds the id of the most recently created timer, and
  `liveTimers` holds the (id, deadline) pairs of timers that were created
  and neither cancelled nor fired yet.  Firing is a separate transition
  that is only enabled for a live, referenced timer at its deadline.
-/

namespace UIRobot

/-- One command written to the socket: its name and its arguments, already
formatted as strings (`sendCommand` joins them with single spaces). -/
structure Cmd where
  name : String
  args : List String
deriving DecidableEq

/-- The wire line produced by `sendCommand` (src line 191):
`command += ' ' + args.join(' ')`. -/
def Cmd.line (c : Cmd) : String :=
  c.name ++ " " ++ String.intercalate " " c.args

/-- Session state: the private fields of the `UIRobot` class, the socket's
connection flag, and the externally observable effect logs. -/
structure DriverState where
  /-- `socket.connected` -/
  connected : Bool
  /-- `mLeftDown` (src line 12) -/
  mLeftDown : Bool
  /-- `mRightDown` (src line 13) -/
  mRightDown : Bool
  /-- `mProgramParams` (src line 16): the running program string, pipe separated -/
  mProgramParams : String
  /-- `mCurrentKeys` (src line 19): currently pressed key combo -/
  mCurrentKeys : String
  /-- `mKeyRlsTimer` (src line 20): id of the pending release timer, if any -/
  mKeyRlsTimer : Option Nat
  /-- ids and deadlines of timers created and not yet cancelled or fired -/
  liveTimers : List (Nat × Nat)
  /-- fresh-id source for timers -/
  nextTimerId : Nat
  /-- commands written to the socket so far, oldest first -/
  sent : List Cmd
  /-- number of `socket.wakeOnLAN()` signals issued -/
  wolSent : Nat
  /-- property names passed to `this.changed(...)`, oldest first -/
  notified : List String
deriving DecidableEq

/-- Accumulator recursion behind `jsSplit`. -/
def splitAux (sep : Char) : List Char → String → List String
  | [], acc => [acc]
  | ch :: rest, acc =>
      if ch = sep then acc :: splitAux sep rest ""
      else splitAux sep rest (acc.push ch)

/-- JavaScript `s.split(sep)` for a one-character separator: splits at
every occurrence, keeping empty segments, and yields `[s]` (possibly
`[""]`) when the separator does not occur. -/
def jsSplit (s : String) (sep : Char) : List String := splitAux sep s.data ""

/-- `kPowerDownProgram` (src line 23). -/
def kPowerDownProgram : String := "C:/Windows/System32/shutdown.exe||/s /f /t 0"

/-- `UIRobot.quote` (src lines 214-216): wrap in literal double quotes. -/
def quote (str : String) : String := "\"" ++ str ++ "\""

/-- JavaScript array indexing `params[i]`: `undefined` when out of range. -/
def jsIndex (l : List String) (i : Nat) : Option String := l.get? i

/-- JavaScript `'"' + x + '"'` where `x` may be `undefined`: string
concatenation coerces `undefined` to the string "undefined". -/
def quoteJs (x : Option String) : String :=
  match x with
  | some s => quote s
  | none => quote "undefined"

/-- JavaScript `a || b` on strings: `b` exactly when `a` is the empty
string, the only falsy string. -/
def jsOrString (a b : String) : String := if a = "" then b else a

/-- The parsed program parameters (src lines 219-223). -/
structure ProgramParams where
  program : String
  workingDir : String
  arguments : List String
deriving DecidableEq

/-- `parseProgramParams` (src lines 200-212): split the pipe-separated
string; the guard `if (programParams)` makes the empty string (and only
it) parse to nothing. -/
def parseProgramParams (programParams : String) : Option ProgramParams :=
  if programParams = "" then none
  else
    let params := jsSplit programParams '|'
    some { program := quoteJs (jsIndex params 0)
           workingDir := jsOrString (quoteJs (jsIndex params 1)) "/"
           arguments := params.drop 2 }

/-- `sendCommand` (src lines 190-194): append one command to the socket log. -/
def sendCommand (s : DriverState) (command : String) (args : List String) : DriverState :=
  { s with sent := s.sent ++ [⟨command, args⟩] }

/-- `changed` (ScriptBase.js): raise a change notification for a property. -/
def changed (s : DriverState) (propName : String) : DriverState :=
  { s with notified := s.notified ++ [propName] }

/-- The `program` property setter (src lines 104-129). -/
def setProgram (s : DriverState) (programParams : String) : DriverState :=
  let s1 :=
    match parseProgramParams s.mProgramParams with
    | some runningProgram => sendCommand s "Terminate" [runningProgram.program]
    | none => s
  match parseProgramParams programParams with
  | some newProgram =>
      let s2 := { s1 with mProgramParams := programParams }
      sendCommand s2 "Launch" (newProgram.workingDir :: newProgram.program :: newProgram.arguments)
  | none => { s1 with mProgramParams := "" }

/-- The `program` property getter (src lines 130-132). -/
def getProgram (s : DriverState) : String := s.mProgramParams

/-- The `power` property getter (src lines 72-74). -/
def getPower (s : DriverState) : Bool :=
  s.connected && (getProgram s != kPowerDownProgram)

/-- The `power` property setter (src lines 57-64). -/
def setPower (s : DriverState) (power : Bool) : DriverState :=
  if power then
    if !s.connected then { s with wolSent := s.wolSent + 1 } else s
  else
    setProgram s kPowerDownProgram

/-- `onConnectStateChanged` (src lines 44-50). -/
def onConnectStateChanged (s : DriverState) (connected : Bool) : DriverState :=
  let s1 := if !connected then { s with mProgramParams := "" } else s
  changed s1 "power"

/-- A transport connection-state event: the socket records the new state,
then the handler subscribed in the constructor (src lines 32-35) runs. -/
def connectEvent (s : DriverState) (connected : Bool) : DriverState :=
  onConnectStateChanged { s with connected := connected } connected

/-- The own entries of the `modifierValues` object literal (src lines
155-161). -/
def modifierValuesOwn (m : String) : Option Nat :=
  if m = "shift" then some 1
  else if m = "control" then some 2
  else if m = "alt" then some 4
  else if m = "altgr" then some 8
  else if m = "meta" then some 16
  else none

/-- The property names every plain JavaScript object literal inherits
from Object.prototype: looking one of these up on `modifierValues` does
not yield `undefined` but a truthy function. -/
def objectProtoProps : List String :=
  ["constructor", "toString", "toLocaleString", "valueOf",
   "hasOwnProperty", "isPrototypeOf", "propertyIsEnumerable"]

/-- The name of the function inherited at the given Object.prototype key:
the "constructor" key holds the `Object` constructor itself; the other
keys hold methods named after the key. -/
def protoFunName (m : String) : String :=
  if m = "constructor" then "Object" else m

/-- The source string the engine produces when a native function is
coerced to a string (the ToString applied by JavaScript `+`): every
mainstream engine prints this form, and in any case it is a
function-source string, never a decimal numeral. -/
def nativeFunSource (name : String) : String :=
  "function " ++ name ++ "() \x7b [native code] \x7d"

/-- The result of the JavaScript property access `modifierValues[mod]`:
an own numeric entry, a function inherited from Object.prototype, or
`undefined`. -/
inductive JsProp where
  | num (n : Nat)
  | fn (name : String)
  | undef
deriving DecidableEq

def modifierValuesLookup (m : String) : JsProp :=
  match modifierValuesOwn m with
  | some n => JsProp.num n
  | none =>
      if objectProtoProps.contains m then JsProp.fn (protoFunName m)
      else JsProp.undef

/-- A JavaScript number-or-string value, as produced by repeated `+=`:
adding a number to a string concatenates its decimal form, and adding a
function to anything concatenates the function's source string. -/
inductive JsVal where
  | num (n : Nat)
  | str (s : String)
deriving DecidableEq

/-- JavaScript `acc + n` for a number `n`. -/
def JsVal.addNum : JsVal → Nat → JsVal
  | num a, b => num (a + b)
  | str s, b => str (s ++ toString b)

/-- JavaScript `acc + f` where `f` coerces to the string `t`. -/
def JsVal.addStr : JsVal → String → JsVal
  | num a, t => str (toString a ++ t)
  | str s, t => str (s ++ t)

/-- The string JavaScript's `join` produces for the value. -/
def JsVal.jsString : JsVal → String
  | num n => toString n
  | str s => s

/-- One step of `modifierSum += modifierValues[mod] || 0` (src line 162):
an own entry (a truthy number) is added; a key inherited from
Object.prototype yields a truthy function that `+` turns into string
concatenation; any other key yields `undefined`, and `|| 0` adds 0. -/
def addModifier (acc : JsVal) (m : String) : JsVal :=
  match modifierValuesLookup m with
  | JsProp.num n => acc.addNum n
  | JsProp.fn name => acc.addStr (nativeFunSource name)
  | JsProp.undef => acc.addNum 0

/-- The `keyDown` property setter (src lines 146-174).  `now` is the
current time; the release timer created for a non-empty combo has
deadline `now + 200` (the `wait(200)` on src line 168). -/
def setKeys (s : DriverState) (now : Nat) (keys : String) : DriverState :=
  let s1 := { s with mCurrentKeys := keys }
  if keys = "" then s1
  else
    let keyPresses := jsSplit keys '+'
    let key := keyPresses.getD (keyPresses.length - 1) ""
    let modifierSum : JsVal :=
      if keyPresses.length > 1 then
        (keyPresses.take (keyPresses.length - 1)).foldl addModifier (JsVal.num 0)
      else JsVal.num 0
    let s2 := sendCommand s1 "KeyPress" [key, modifierSum.jsString]
    let s3 :=
      match s2.mKeyRlsTimer with
      | some tid => { s2 with liveTimers := s2.liveTimers.filter (fun p => p.1 != tid) }
      | none => s2
    { s3 with
      mKeyRlsTimer := some s3.nextTimerId
      liveTimers := s3.liveTimers ++ [(s3.nextTimerId, now + 200)]
      nextTimerId := s3.nextTimerId + 1 }

/-- The `keyDown` property getter (src lines 175-177). -/
def getKeys (s : DriverState) : String := s.mCurrentKeys

/-- The release-timer callback (src lines 169-172): enabled only when the
referenced timer is still live and its deadline is `now`; it consumes the
timer, runs `this.keyDown = '' ` and clears the timer reference. -/
def fireKeyTimer (s : DriverState) (now : Nat) : DriverState :=
  match s.mKeyRlsTimer with
  | some tid =>
      if s.liveTimers.contains (tid, now) then
        let s1 := { s with liveTimers := s.liveTimers.filter (fun p => p.1 != tid) }
        let s2 := setKeys s1 now ""
        { s2 with mKeyRlsTimer := none }
      else s
  | none => s

/-- The `leftDown` property setter (src lines 77-82). -/
def setLeftDown (s : DriverState) (value : Bool) : DriverState :=
  if s.mLeftDown != value then
    sendCommand { s with mLeftDown := value } "MousePress"
      ["1024", if value then "1" else "2"]
  else s

/-- A freshly constructed session (all private fields at their
initializers) whose socket reports the given connection state. -/
def initState (connected : Bool) : DriverState :=
  { connected := connected
    mLeftDown := false
    mRightDown := false
    mProgramParams := ""
    mCurrentKeys := ""
    mKeyRlsTimer := none
    liveTimers := []
    nextTimerId := 0
    sent := []
    wolSent := 0
    notified := [] }

/-- Well-formedness of the timer bookkeeping: every live timer is the one
referenced by `mKeyRlsTimer`. -/
def timerInv (s : DriverState) : Prop :=
  ∀ p ∈ s.liveTimers, s.mKeyRlsTimer = some p.1

lemma parseProgramParams_eq (p : String) (h : p ≠ "") :
    parseProgramParams p =
      some { program := quoteJs (jsIndex (jsSplit p '|') 0)
             workingDir := jsOrString (quoteJs (jsIndex (jsSplit p '|') 1)) "/"
             arguments := (jsSplit p '|').drop 2 } := by
  simp [parseProgramParams, h]

lemma setKeys_empty_eq (s : DriverState) (now : Nat) :
    setKeys s now "" = { s with mCurrentKeys := "" } := by
  simp [setKeys]

lemma parseProgramParams_empty : parseProgramParams "" = none := by
  simp [parseProgramParams]

lemma setProgram_empty_none (s : DriverState)
    (hp : parseProgramParams s.mProgramParams = none) :
    setProgram s "" = { s with mProgramParams := "" } := by
  unfold setProgram
  rw [hp, parseProgramParams_empty]

lemma setProgram_empty_some (s : DriverState) (rp : ProgramParams)
    (hp : parseProgramParams s.mProgramParams = some rp) :
    setProgram s "" =
      { s with sent := s.sent ++ [Cmd.mk "Terminate" [rp.program]]
               mProgramParams := "" } := by
  unfold setProgram
  rw [hp, parseProgramParams_empty]
  rfl

/-- C1: refuted by the code.  On "exe||arg" (empty second segment) the
parsed working directory is the quoted empty string, and on "exe" (absent
second segment) it is the quoted string "undefined" — never the default
the default slash, because `quote` is applied before the fallback and its
result is always truthy, making the fallback unreachable; the emitted
Launch command carries that quoted value as its working-directory
argument. -/
theorem parse_workingDir_never_defaults :
    parseProgramParams "exe||arg" =
      some { program := "\"exe\"", workingDir := "\"\"", arguments := ["arg"] } ∧
    parseProgramParams "exe" =
      some { program := "\"exe\"", workingDir := "\"undefined\"", arguments := [] } ∧
    (setProgram (initState true) "exe||arg").sent =
      [{ name := "Launch", args := ["\"\"", "\"exe\"", "arg"] }] ∧
    ("\"\"" : String) ≠ "/" ∧ ("\"undefined\"" : String) ≠ "/" := by
  decide

/-- C3: the power getter returns true iff the transport reports connected
and the stored program string differs from `kPowerDownProgram`; it is a
pure function of those two inputs (two states agreeing on them yield the
same power value), not a separately stored field. -/
theorem power_derived_pure (s t : DriverState)
    (hc : s.connected = t.connected) (hp : s.mProgramParams = t.mProgramParams) :
    getPower s = getPower t ∧
    (getPower s = true ↔ (s.connected = true ∧ getProgram s ≠ kPowerDownProgram)) := by
  constructor
  · simp [getPower, getProgram, hc, hp]
  · simp [getPower, getProgram, Bool.and_eq_true, bne_iff_ne]

theorem power_derived_pure_witness :
    getPower (initState true) = getPower (initState true) ∧
    (getPower (initState true) = true ↔
      ((initState true).connected = true ∧
        getProgram (initState true) ≠ kPowerDownProgram)) :=
  power_derived_pure (initState true) (initState true) rfl rfl

/-- C7: every transport connection-state event appends a change
notification for "power"; a disconnected event additionally resets the
stored program string, so the program getter returns "". -/
theorem disconnect_clears_program_notifies_power (s : DriverState) (b : Bool) :
    (connectEvent s b).notified = s.notified ++ ["power"] ∧
    (b = false →
      (connectEvent s b).mProgramParams = "" ∧ getProgram (connectEvent s b) = "") := by
  cases b <;> simp [connectEvent, onConnectStateChanged, changed, getProgram]

theorem disconnect_clears_program_notifies_power_witness :
    (connectEvent (initState true) false).notified =
      (initState true).notified ++ ["power"] ∧
    (connectEvent (initState true) false).mProgramParams = "" ∧
    getProgram (connectEvent (initState true) false) = "" :=
  ⟨(disconnect_clears_program_notifies_power (initState true) false).1,
   (disconnect_clears_program_notifies_power (initState true) false).2 rfl⟩

/-- C8: for every non-empty (hence parseable) input p, reading the program
property right after setting it returns exactly the original string p. -/
theorem program_roundtrip (s : DriverState) (p : String) (h : p ≠ "") :
    getProgram (setProgram s p) = p := by
  unfold setProgram
  rw [parseProgramParams_eq p h]
  cases hp : parseProgramParams s.mProgramParams <;> simp [getProgram, sendCommand]

theorem program_roundtrip_witness :
    getProgram (setProgram (initState true) "a|b|c") = "a|b|c" :=
  program_roundtrip (initState true) "a|b|c" (by decide)

/-- C9: setting power to true changes no session field other than issuing
one wake-on-LAN signal when (and only when) the transport is not already
connected; in particular the stored program string, the command log and
the value of the power getter are untouched. -/
theorem power_on_frame (s : DriverState) :
    (setPower s true).mProgramParams = s.mProgramParams ∧
    (setPower s true).mCurrentKeys = s.mCurrentKeys ∧
    (setPower s true).mLeftDown = s.mLeftDown ∧
    (setPower s true).mRightDown = s.mRightDown ∧
    (setPower s true).mKeyRlsTimer = s.mKeyRlsTimer ∧
    (setPower s true).liveTimers = s.liveTimers ∧
    (setPower s true).nextTimerId = s.nextTimerId ∧
    (setPower s true).sent = s.sent ∧
    (setPower s true).notified = s.notified ∧
    (setPower s true).connected = s.connected ∧
    (setPower s true).wolSent = s.wolSent + (if s.connected then 0 else 1) ∧
    getPower (setPower s true) = getPower s := by
  cases hc : s.connected <;> simp [setPower, hc, getPower, getProgram]

/-- C2: when the stored program string parses to a running program (it is
non-empty) and the new input parses to a valid spec, one invocation of the
program setter appends exactly two commands in order: a Terminate whose
sole argument is the previous spec's quoted executable path, then a Launch
whose arguments are the new spec's quoted working directory, quoted
executable path, and positional arguments in order. -/
theorem program_set_terminate_then_launch (s : DriverState) (pNew : String)
    (hprev : s.mProgramParams ≠ "") (hnew : pNew ≠ "") :
    ∃ rp np : ProgramParams,
      parseProgramParams s.mProgramParams = some rp ∧
      parseProgramParams pNew = some np ∧
      rp.program = quoteJs (jsIndex (jsSplit s.mProgramParams '|') 0) ∧
      np.program = quoteJs (jsIndex (jsSplit pNew '|') 0) ∧
      np.workingDir = jsOrString (quoteJs (jsIndex (jsSplit pNew '|') 1)) "/" ∧
      np.arguments = (jsSplit pNew '|').drop 2 ∧
      (setProgram s pNew).sent =
        s.sent ++ [{ name := "Terminate", args := [rp.program] },
                   { name := "Launch",
                     args := np.workingDir :: np.program :: np.arguments }] := by
  refine ⟨_, _, parseProgramParams_eq _ hprev, parseProgramParams_eq _ hnew,
    rfl, rfl, rfl, rfl, ?_⟩
  unfold setProgram
  rw [parseProgramParams_eq _ hprev, parseProgramParams_eq _ hnew]
  simp [sendCommand]

theorem program_set_terminate_then_launch_witness :
    ∃ rp np : ProgramParams,
      parseProgramParams
        ({ initState true with mProgramParams := "a|b" } : DriverState).mProgramParams
        = some rp ∧
      parseProgramParams "c|d|e" = some np ∧
      rp.program = quoteJs (jsIndex (jsSplit
        ({ initState true with mProgramParams := "a|b" } : DriverState).mProgramParams '|') 0) ∧
      np.program = quoteJs (jsIndex (jsSplit "c|d|e" '|') 0) ∧
      np.workingDir = jsOrString (quoteJs (jsIndex (jsSplit "c|d|e" '|') 1)) "/" ∧
      np.arguments = (jsSplit "c|d|e" '|').drop 2 ∧
      (setProgram { initState true with mProgramParams := "a|b" } "c|d|e").sent =
        ({ initState true with mProgramParams := "a|b" } : DriverState).sent ++
          [{ name := "Terminate", args := [rp.program] },
           { name := "Launch",
             args := np.workingDir :: np.program :: np.arguments }] :=
  program_set_terminate_then_launch
    { initState true with mProgramParams := "a|b" } "c|d|e" (by decide) (by decide)

/-- C4: an input that fails to parse (which happens exactly for the empty
string) is normalized to "no program": the stored program string becomes
empty, the only command possibly sent is a single Terminate for a
previously running program — never a Launch — and no error is raised (the
setter is total). -/
theorem program_set_invalid_normalizes (s : DriverState) (inp : String)
    (h : parseProgramParams inp = none) :
    inp = "" ∧
    (setProgram s inp).mProgramParams = "" ∧
    (setProgram s inp).sent =
      s.sent ++ (match parseProgramParams s.mProgramParams with
        | some rp => [{ name := "Terminate", args := [rp.program] }]
        | none => []) ∧
    (∀ c ∈ (setProgram s inp).sent, c.name = "Launch" → c ∈ s.sent) := by
  have hinp : inp = "" := by
    by_contra hne
    rw [parseProgramParams_eq _ hne] at h
    exact Option.noConfusion h
  subst hinp
  cases hp : parseProgramParams s.mProgramParams with
  | none =>
      rw [setProgram_empty_none s hp]
      exact ⟨rfl, rfl, by simp, fun c hc hname => hc⟩
  | some rp =>
      rw [setProgram_empty_some s rp hp]
      refine ⟨rfl, rfl, by simp [Cmd.mk], ?_⟩
      intro c hc hname
      rcases List.mem_append.mp hc with h1 | h1
      · exact h1
      · exfalso
        simp only [List.mem_singleton] at h1
        rw [h1] at hname
        simp [Cmd.mk] at hname

theorem program_set_invalid_normalizes_witness :
    ("" : String) = "" ∧
    (setProgram { initState true with mProgramParams := "a|b" } "").mProgramParams = "" ∧
    (setProgram { initState true with mProgramParams := "a|b" } "").sent =
      ({ initState true with mProgramParams := "a|b" } : DriverState).sent ++
        (match parseProgramParams
            ({ initState true with mProgramParams := "a|b" } : DriverState).mProgramParams with
          | some rp => [{ name := "Terminate", args := [rp.program] }]
          | none => []) ∧
    (∀ c ∈ (setProgram { initState true with mProgramParams := "a|b" } "").sent,
      c.name = "Launch" →
        c ∈ ({ initState true with mProgramParams := "a|b" } : DriverState).sent) :=
  program_set_invalid_normalizes { initState true with mProgramParams := "a|b" } "" rfl

lemma setKeys_timers (s : DriverState) (now : Nat) (k : String) (hk : k ≠ "") :
    (setKeys s now k).mKeyRlsTimer = some s.nextTimerId ∧
    (setKeys s now k).nextTimerId = s.nextTimerId + 1 ∧
    (setKeys s now k).liveTimers =
      (match s.mKeyRlsTimer with
        | some tid => s.liveTimers.filter (fun p => p.1 != tid)
        | none => s.liveTimers) ++ [(s.nextTimerId, now + 200)] ∧
    (setKeys s now k).mCurrentKeys = k := by
  unfold setKeys
  rw [if_neg hk]
  cases ht : s.mKeyRlsTimer <;> simp [sendCommand]

lemma setKeys_live_singleton (s : DriverState) (now : Nat) (k : String)
    (hk : k ≠ "") (hinv : timerInv s) :
    (setKeys s now k).liveTimers = [(s.nextTimerId, now + 200)] := by
  obtain ⟨-, -, hlive, -⟩ := setKeys_timers s now k hk
  rw [hlive]
  cases ht : s.mKeyRlsTimer with
  | none =>
      have hnil : s.liveTimers = [] := by
        cases hl : s.liveTimers with
        | nil => rfl
        | cons a t =>
            have := hinv a (hl ▸ List.mem_cons_self a t)
            rw [ht] at this
            exact Option.noConfusion this
      simp [hnil]
  | some tid =>
      have hfil : s.liveTimers.filter (fun p => p.1 != tid) = [] := by
        refine List.filter_eq_nil_iff.mpr ?_
        intro a ha
        have := hinv a ha
        rw [ht] at this
        have : tid = a.1 := Option.some.inj this
        simp [this]
      simp [hfil]

lemma fireKeyTimer_eq (s : DriverState) (tid now : Nat)
    (hT : s.mKeyRlsTimer = some tid) (hL : s.liveTimers = [(tid, now)]) :
    fireKeyTimer s now =
      { s with liveTimers := [], mCurrentKeys := "", mKeyRlsTimer := none } := by
  have hc : s.liveTimers.contains (tid, now) = true := by rw [hL]; simp
  have hfil : s.liveTimers.filter (fun p => p.1 != tid) = [] := by
    rw [hL]; simp
  simp [fireKeyTimer, hT, hc, setKeys_empty_eq, hfil]
  intro hmem
  rw [hL] at hmem
  simp at hmem

/-- C6: from any state whose live timers are well-formed, two non-empty
keyDown writes in close succession leave exactly the second write's
release timer live (the first is cancelled when the second is created),
with its deadline 200 units after the second write; firing it clears the
key combo, sends no command, empties the live-timer set and clears the
timer reference. -/
theorem keyDown_debounce_single_timer (s : DriverState) (t1 t2 : Nat)
    (k1 k2 : String) (hinv : timerInv s) (h1 : k1 ≠ "") (h2 : k2 ≠ "")
    (_hrapid : t2 < t1 + 200) :
    (setKeys s t1 k1).liveTimers = [(s.nextTimerId, t1 + 200)] ∧
    (setKeys (setKeys s t1 k1) t2 k2).liveTimers =
      [(s.nextTimerId + 1, t2 + 200)] ∧
    (setKeys (setKeys s t1 k1) t2 k2).mKeyRlsTimer = some (s.nextTimerId + 1) ∧
    (fireKeyTimer (setKeys (setKeys s t1 k1) t2 k2) (t2 + 200)).mCurrentKeys = "" ∧
    (fireKeyTimer (setKeys (setKeys s t1 k1) t2 k2) (t2 + 200)).mKeyRlsTimer = none ∧
    (fireKeyTimer (setKeys (setKeys s t1 k1) t2 k2) (t2 + 200)).liveTimers = [] ∧
    (fireKeyTimer (setKeys (setKeys s t1 k1) t2 k2) (t2 + 200)).sent =
      (setKeys (setKeys s t1 k1) t2 k2).sent := by
  obtain ⟨hT1, hN1, -, -⟩ := setKeys_timers s t1 k1 h1
  have hlive1 := setKeys_live_singleton s t1 k1 h1 hinv
  have hinv1 : timerInv (setKeys s t1 k1) := by
    intro p hp
    rw [hlive1, List.mem_singleton] at hp
    rw [hT1, hp]
  obtain ⟨hT2, hN2, -, -⟩ := setKeys_timers (setKeys s t1 k1) t2 k2 h2
  have hlive2 := setKeys_live_singleton (setKeys s t1 k1) t2 k2 h2 hinv1
  rw [hN1] at hlive2 hT2
  have hfire := fireKeyTimer_eq (setKeys (setKeys s t1 k1) t2 k2)
      (s.nextTimerId + 1) (t2 + 200) hT2 hlive2
  refine ⟨hlive1, hlive2, hT2, ?_, ?_, ?_, ?_⟩ <;> rw [hfire]

theorem keyDown_debounce_single_timer_witness :
    (setKeys (initState true) 0 "a").liveTimers =
      [((initState true).nextTimerId, 0 + 200)] ∧
    (setKeys (setKeys (initState true) 0 "a") 100 "b").liveTimers =
      [((initState true).nextTimerId + 1, 100 + 200)] ∧
    (setKeys (setKeys (initState true) 0 "a") 100 "b").mKeyRlsTimer =
      some ((initState true).nextTimerId + 1) ∧
    (fireKeyTimer (setKeys (setKeys (initState true) 0 "a") 100 "b")
      (100 + 200)).mCurrentKeys = "" ∧
    (fireKeyTimer (setKeys (setKeys (initState true) 0 "a") 100 "b")
      (100 + 200)).mKeyRlsTimer = none ∧
    (fireKeyTimer (setKeys (setKeys (initState true) 0 "a") 100 "b")
      (100 + 200)).liveTimers = [] ∧
    (fireKeyTimer (setKeys (setKeys (initState true) 0 "a") 100 "b")
      (100 + 200)).sent =
      (setKeys (setKeys (initState true) 0 "a") 100 "b").sent :=
  keyDown_debounce_single_timer (initState true) 0 100 "a" "b"
    (by intro p hp; simp [initState] at hp)
    (by decide) (by decide) (by decide)

/-- C10: writing the empty string to keyDown while a release timer is
pending stores the empty string, sends nothing and leaves the pending
timer untouched; that timer later fires, setting the combo to the empty
string again (still sending nothing) and clearing the timer reference. -/
theorem keyDown_empty_keeps_timer (s : DriverState) (t tid ft : Nat)
    (hT : s.mKeyRlsTimer = some tid) (hL : s.liveTimers = [(tid, ft)]) :
    (setKeys s t "").mCurrentKeys = "" ∧
    (setKeys s t "").mKeyRlsTimer = some tid ∧
    (setKeys s t "").liveTimers = [(tid, ft)] ∧
    (setKeys s t "").sent = s.sent ∧
    (fireKeyTimer (setKeys s t "") ft).mCurrentKeys = "" ∧
    (fireKeyTimer (setKeys s t "") ft).mKeyRlsTimer = none ∧
    (fireKeyTimer (setKeys s t "") ft).liveTimers = [] ∧
    (fireKeyTimer (setKeys s t "") ft).sent = s.sent := by
  rw [setKeys_empty_eq]
  have hT1 : ({ s with mCurrentKeys := "" } : DriverState).mKeyRlsTimer = some tid := hT
  have hL1 : ({ s with mCurrentKeys := "" } : DriverState).liveTimers = [(tid, ft)] := hL
  rw [fireKeyTimer_eq _ tid ft hT1 hL1]
  exact ⟨rfl, hT, hL, rfl, rfl, rfl, rfl, rfl⟩

theorem keyDown_empty_keeps_timer_witness :
    (setKeys (setKeys (initState true) 0 "a") 50 "").mCurrentKeys = "" ∧
    (setKeys (setKeys (initState true) 0 "a") 50 "").mKeyRlsTimer = some 0 ∧
    (setKeys (setKeys (initState true) 0 "a") 50 "").liveTimers = [(0, 200)] ∧
    (setKeys (setKeys (initState true) 0 "a") 50 "").sent =
      (setKeys (initState true) 0 "a").sent ∧
    (fireKeyTimer (setKeys (setKeys (initState true) 0 "a") 50 "") 200).mCurrentKeys = "" ∧
    (fireKeyTimer (setKeys (setKeys (initState true) 0 "a") 50 "") 200).mKeyRlsTimer = none ∧
    (fireKeyTimer (setKeys (setKeys (initState true) 0 "a") 50 "") 200).liveTimers = [] ∧
    (fireKeyTimer (setKeys (setKeys (initState true) 0 "a") 50 "") 200).sent =
      (setKeys (initState true) 0 "a").sent :=
  keyDown_empty_keeps_timer (setKeys (initState true) 0 "a") 50 0 200
    (by decide) (by decide)

end UIRobot
